import Mathlib

/-!
Verification development for the PCODE-E-Menu order lifecycle.

This file embeds, as Lean definitions, the order-related logic of the
repository: the per-restaurant-per-day order-number counter
(`src/src/lib/image-utils.ts`, function `getNextOrderNumber`), the cart
operations and order placement of the customer menu page
(`MenuClient` in `src/unnamed/part_006`), the status classification and
status update of the owner dashboard
(`src/src/app/dashboard/orders/page.tsx` and
`src/src/app/dashboard/layout.tsx`), the customer-facing progress
mapping (`src/unnamed/part_005`), and the statistics aggregation
(`src/src/app/dashboard/profile/page.tsx`).

JavaScript numbers are modelled as rationals (`ℚ`) for prices and
totals and integers (`ℤ`) for quantities; document-store state is
modelled as explicit values threaded through functions.
-/

namespace EMenu

/-! ## Data model (from `src/src/types/index.ts`) -/

/-- The six order statuses of `OrderStatus` in `src/src/types/index.ts`:
`'Received' | 'Ongoing' | 'Finishing' | 'On the Way' | 'Served' | 'Canceled'`. -/
inductive OrderStatus where
  | Received
  | Ongoing
  | Finishing
  | OnTheWay
  | Served
  | Canceled
deriving DecidableEq, Repr, Fintype

/-- A menu item (`MenuItem` in `src/src/types/index.ts`): id, name,
description, price, categoryId and an optional image. -/
structure MenuItem where
  id : String
  name : String
  description : String
  price : ℚ
  categoryId : String
  image : Option String
deriving DecidableEq, Repr

/-- A cart entry (`OrderItem extends MenuItem { quantity: number }`). -/
structure OrderItem extends MenuItem where
  quantity : ℤ
deriving DecidableEq, Repr

/-- An item as persisted by `handlePlaceOrder`: the cart entry with the
`description` and `image` fields destructured away
(`const { description, image, ...rest } = item; return rest;`). -/
structure SavedOrderItem where
  id : String
  name : String
  price : ℚ
  categoryId : String
  quantity : ℤ
deriving DecidableEq, Repr

/-- The calendar fields of a Firestore `createdAt` timestamp that the
statistics page reads: `getHours()` (0-23), `getDate()` (1-based
day of month) and `getMonth()` (0-based month). -/
structure Timestamp where
  hour : ℕ
  day : ℕ
  month : ℕ
deriving DecidableEq, Repr

/-- A persisted order (`Order` in `src/src/types/index.ts`), with
`items` holding the stripped snapshots actually written by
`handlePlaceOrder`. -/
structure Order where
  id : String
  restaurantId : String
  items : List SavedOrderItem
  total : ℚ
  customerIdentifier : String
  status : OrderStatus
  createdAt : Timestamp
  orderNumber : ℕ
deriving DecidableEq, Repr

/-! ## OrderCounter (from `getNextOrderNumber` in `src/src/lib/image-utils.ts`) -/

/-- The `orderCounters` collection: a map from document key to the
stored `count` field; `none` models a document that does not exist. -/
def CounterStore : Type := String → Option ℕ

/-- The counter document key, `` `${restaurantId}_${today}` ``. -/
def counterKey (restaurantId today : String) : String :=
  restaurantId ++ "_" ++ today

/-- The body of the `runTransaction` call in `getNextOrderNumber`:
read the counter document; if it does not exist, set `count` to 1 and
return 1; otherwise update `count` to `count + 1` and return the new
count.  Returns the updated store together with the returned number. -/
def getNextOrderNumber (store : CounterStore) (restaurantId today : String) :
    CounterStore × ℕ :=
  let key := counterKey restaurantId today
  match store key with
  | none => (fun k => if k = key then some 1 else store k, 1)
  | some count => (fun k => if k = key then some (count + 1) else store k, count + 1)

/-! ## Cart operations (from `MenuClient` in `src/unnamed/part_006`) -/

/-- The `handleAddToOrder` state update: if an entry with the item's id
is already in the cart, increment that entry's quantity by 1;
otherwise append the item with quantity 1. -/
def handleAddToOrder (cart : List OrderItem) (item : MenuItem) : List OrderItem :=
  if cart.any (fun orderItem => orderItem.id = item.id) then
    cart.map (fun orderItem =>
      if orderItem.id = item.id then
        { orderItem with quantity := orderItem.quantity + 1 }
      else orderItem)
  else
    cart ++ [{ item with quantity := 1 }]

/-- The `handleUpdateQuantity` state update: a quantity of at most 0
removes the entry; otherwise the entry's quantity is set to the given
value. -/
def handleUpdateQuantity (cart : List OrderItem) (itemId : String) (quantity : ℤ) :
    List OrderItem :=
  if quantity ≤ 0 then
    cart.filter (fun item => item.id ≠ itemId)
  else
    cart.map (fun item =>
      if item.id = itemId then { item with quantity := quantity } else item)

/-- The `orderTotal` memo:
`order.reduce((total, item) => total + item.price * item.quantity, 0)`. -/
def orderTotal (cart : List OrderItem) : ℚ :=
  cart.foldl (fun total item => total + item.price * (item.quantity : ℚ)) 0

/-- Stripping one cart entry for Firestore:
`const { description, image, ...rest } = item; return rest;`. -/
def stripForSave (item : OrderItem) : SavedOrderItem :=
  { id := item.id
    name := item.name
    price := item.price
    categoryId := item.categoryId
    quantity := item.quantity }

/-- The `itemsToSave` computation of `handlePlaceOrder`: strip every
cart entry. -/
def itemsToSave (cart : List OrderItem) : List SavedOrderItem :=
  cart.map stripForSave

/-! ## Order placement (from `handlePlaceOrder` in `src/unnamed/part_006`) -/

/-- The outcome of one run of `handlePlaceOrder`: a demo toast, a
"required" toast for an empty identifier, a successful write of the
new order document, or the catch-branch "Order Failed" toast. -/
inductive PlaceOrderOutcome where
  | demoToast
  | identifierRequiredToast
  | placed (order : Order)
  | orderFailedToast
deriving DecidableEq, Repr

/-- The order document written by a `PlaceOrderOutcome`, if any:
only the `placed` branch reaches `setDoc`. -/
def writtenOrder : PlaceOrderOutcome → Option Order
  | .placed order => some order
  | _ => none

/-- The `handlePlaceOrder` control flow: a demo restaurant only shows a
toast; an empty `customerIdentifier` shows a "required" toast; then
`getNextOrderNumber` runs, and if it throws the catch branch shows the
"Order Failed" toast with nothing written, while on success the order
document is assembled (stripped items, `orderTotal`, status
`"Received"`, the returned order number) and written.  The counter
call's result is passed in as an `Except`, mirroring the awaited
promise that either yields a number or throws. -/
def handlePlaceOrder (isDemo : Bool) (restaurantId orderId : String)
    (customerIdentifier : String) (cart : List OrderItem)
    (counterResult : Except String ℕ) (createdAt : Timestamp) :
    PlaceOrderOutcome :=
  if isDemo then
    .demoToast
  else if customerIdentifier = "" then
    .identifierRequiredToast
  else
    match counterResult with
    | .error _ => .orderFailedToast
    | .ok orderNumber =>
        .placed
          { id := orderId
            restaurantId := restaurantId
            items := itemsToSave cart
            total := orderTotal cart
            customerIdentifier := customerIdentifier
            status := .Received
            createdAt := createdAt
            orderNumber := orderNumber }

/-! ## Status update and classification (dashboard) -/

/-- The `handleStatusChange` write in
`src/src/app/dashboard/orders/page.tsx`:
`updateDoc(orderRef, { status: newStatus })` — a single-field update
of `status`, every other field untouched. -/
def handleStatusChange (order : Order) (newStatus : OrderStatus) : Order :=
  { order with status := newStatus }

/-- The active-order predicate used verbatim in the dashboard orders
page: `o.status !== 'Served' && o.status !== 'Canceled'`. -/
def isActiveStatus (status : OrderStatus) : Bool :=
  !(status = OrderStatus.Served) && !(status = OrderStatus.Canceled)

/-- `activeOrders` from `src/src/app/dashboard/orders/page.tsx` line 82:
`orders.filter(o => o.status !== 'Served' && o.status !== 'Canceled')`. -/
def activeOrders (orders : List Order) : List Order :=
  orders.filter (fun o => isActiveStatus o.status)

/-- `pastOrders` from `src/src/app/dashboard/orders/page.tsx` line 83:
`orders.filter(o => o.status === 'Served' || o.status === 'Canceled')`. -/
def pastOrders (orders : List Order) : List Order :=
  orders.filter (fun o => o.status = OrderStatus.Served || o.status = OrderStatus.Canceled)

/-- The pending-order badge count from
`src/src/app/dashboard/layout.tsx` lines 92-98: the number of snapshot
documents whose `status` is neither `'Served'` nor `'Canceled'`. -/
def pendingOrderCount (orders : List Order) : ℕ :=
  (orders.filter (fun o =>
    !(o.status = OrderStatus.Served) && !(o.status = OrderStatus.Canceled))).length

/-- The dashboard status picker: the `Select` is rendered only on
cards of `activeOrders`, and for such a card it offers every key of
`statusColors`, i.e. all six statuses.  `dashboardCanSetStatus current
next` holds exactly when the dashboard UI can change an order whose
status is `current` to `next`. -/
def dashboardCanSetStatus (current next : OrderStatus) : Bool :=
  isActiveStatus current &&
    (next = OrderStatus.Received || next = OrderStatus.Ongoing ||
     next = OrderStatus.Finishing || next = OrderStatus.OnTheWay ||
     next = OrderStatus.Served || next = OrderStatus.Canceled)

/-- Modelled from the spec: the transition relation exactly as the
claim states it — the chain Received → Ongoing → Finishing →
On the Way → Served, plus Canceled reachable from any non-terminal
state.  This is the comparison point for the refinement claim about
`dashboardCanSetStatus`; it is not code of the repository. -/
def specTransition (current next : OrderStatus) : Bool :=
  match current, next with
  | .Received, .Ongoing => true
  | .Ongoing, .Finishing => true
  | .Finishing, .OnTheWay => true
  | .OnTheWay, .Served => true
  | .Received, .Canceled => true
  | .Ongoing, .Canceled => true
  | .Finishing, .Canceled => true
  | .OnTheWay, .Canceled => true
  | _, _ => false

/-! ## Customer progress view (from `src/unnamed/part_005`) -/

/-- The `step` field of `statusMap`: Received 1, Ongoing 2, Finishing 3,
On the Way 4, Served 5, Canceled 0. -/
def statusStep : OrderStatus → ℕ
  | .Received => 1
  | .Ongoing => 2
  | .Finishing => 3
  | .OnTheWay => 4
  | .Served => 5
  | .Canceled => 0

/-- `const TOTAL_STEPS = 5;`. -/
def TOTAL_STEPS : ℕ := 5

/-- `progressPercentage = (currentStatusInfo.step / TOTAL_STEPS) * 100`. -/
def progressPercentage (status : OrderStatus) : ℚ :=
  ((statusStep status : ℚ) / (TOTAL_STEPS : ℚ)) * 100

/-- Whether the order-status page renders the progress bar: the bar is
inside `{!isCanceled && ...}`, with `isCanceled = (order.status === 'Canceled')`. -/
def showsProgressBar (status : OrderStatus) : Bool :=
  !(status = OrderStatus.Canceled)

/-! ## Statistics (from `src/src/app/dashboard/profile/page.tsx`) -/

/-- The three headline metrics of the `stats` memo. -/
structure Stats where
  totalRevenue : ℚ
  totalOrders : ℕ
  averageOrderValue : ℚ
deriving DecidableEq, Repr

/-- The `stats` memo over the filtered Served orders:
`totalRevenue = filteredOrders.reduce((sum, order) => sum + order.total, 0)`,
`totalOrders = filteredOrders.length`, and
`averageOrderValue = totalOrders > 0 ? totalRevenue / totalOrders : 0`. -/
def stats (filteredOrders : List Order) : Stats :=
  let totalRevenue := filteredOrders.foldl (fun sum order => sum + order.total) 0
  let totalOrders := filteredOrders.length
  { totalRevenue := totalRevenue
    totalOrders := totalOrders
    averageOrderValue :=
      if 0 < totalOrders then totalRevenue / (totalOrders : ℚ) else 0 }

/-- The `Timeframe` union type: `'day' | 'month' | 'year'`. -/
inductive Timeframe where
  | day
  | month
  | year
deriving DecidableEq, Repr

/-- Number of histogram buckets the `chartData` memo allocates:
24 for the day window (`Array.from({ length: 24 }, ...)`), the current
month's day count for the month window, 12 for the year window. -/
def bucketCount (timeframe : Timeframe) (daysInMonth : ℕ) : ℕ :=
  match timeframe with
  | .day => 24
  | .month => daysInMonth
  | .year => 12

/-- The bucket an order's revenue is added to: `createdAt.getHours()`
for the day window, `createdAt.getDate() - 1` for the month window,
`createdAt.getMonth()` for the year window. -/
def bucketIndex (timeframe : Timeframe) (createdAt : Timestamp) : ℕ :=
  match timeframe with
  | .day => createdAt.hour
  | .month => createdAt.day - 1
  | .year => createdAt.month

/-- One `forEach` step of the `chartData` memo:
`data[index].Revenue += order.total`. -/
def addToBucket (buckets : List ℚ) (index : ℕ) (revenue : ℚ) : List ℚ :=
  buckets.set index (buckets.getD index 0 + revenue)

/-- The `chartData` memo, keeping only each bucket's `Revenue` field:
allocate `bucketCount` zero buckets, then fold the filtered orders,
adding each order's `total` to the bucket selected by `bucketIndex`. -/
def chartData (timeframe : Timeframe) (daysInMonth : ℕ)
    (filteredOrders : List Order) : List ℚ :=
  filteredOrders.foldl
    (fun buckets order =>
      addToBucket buckets (bucketIndex timeframe order.createdAt) order.total)
    (List.replicate (bucketCount timeframe daysInMonth) (0 : ℚ))

/-! ## Cart reachability (for the cart invariant) -/

/-- One user interaction with the cart: an "Add to Order" click or a
quantity update (the +, -, and trash buttons all call
`handleUpdateQuantity`). -/
inductive CartOp where
  | add (item : MenuItem)
  | update (itemId : String) (quantity : ℤ)
deriving DecidableEq, Repr

/-- Apply one cart interaction to the current cart state. -/
def applyCartOp (cart : List OrderItem) : CartOp → List OrderItem
  | .add item => handleAddToOrder cart item
  | .update itemId quantity => handleUpdateQuantity cart itemId quantity

/-- The cart state after a sequence of interactions, starting from the
initial empty cart (`useState<OrderItem[]>([])`). -/
def runCartOps (ops : List CartOp) : List OrderItem :=
  ops.foldl applyCartOp []

/-- The cart invariant: every entry has quantity at least 1, and the
entry ids are pairwise distinct. -/
def CartInv (cart : List OrderItem) : Prop :=
  (∀ item ∈ cart, 1 ≤ item.quantity) ∧ (cart.map (fun item => item.id)).Nodup

/-! ## Concrete fixtures (from the demo menu data in `src/unnamed/part_006`) -/

/-- The demo menu's Bruschetta item (price 8.99). -/
def bruschetta : MenuItem :=
  { id := "item1"
    name := "Bruschetta"
    description := "Grilled bread with tomatoes, garlic, basil, and olive oil."
    price := 899 / 100
    categoryId := "cat1"
    image := some "https://placehold.co/600x400.png" }

/-- The demo menu's Spinach Dip item (price 10.50). -/
def spinachDip : MenuItem :=
  { id := "item2"
    name := "Spinach Dip"
    description := "Creamy spinach and artichoke dip served with tortilla chips."
    price := 1050 / 100
    categoryId := "cat1"
    image := some "https://placehold.co/600x400.png" }

/-- A concrete two-entry cart: two Bruschetta, one Spinach Dip. -/
def sampleCart : List OrderItem :=
  [{ bruschetta with quantity := 2 }, { spinachDip with quantity := 1 }]

/-- A concrete creation timestamp (noon on the 15th, June). -/
def sampleTime : Timestamp :=
  { hour := 12, day := 15, month := 5 }

/-- The order document `handlePlaceOrder` writes for `sampleCart` with
order number 1. -/
def samplePlacedOrder : Order :=
  { id := "order-1"
    restaurantId := "r1"
    items := itemsToSave sampleCart
    total := orderTotal sampleCart
    customerIdentifier := "14"
    status := .Received
    createdAt := sampleTime
    orderNumber := 1 }

/-! ## Shared helper lemmas -/

/-- Folding an accumulating addition equals the starting value plus the
sum of the mapped list. -/
theorem foldl_add_eq_sum {α : Type} (f : α → ℚ) (l : List α) (a : ℚ) :
    l.foldl (fun acc x => acc + f x) a = a + (l.map f).sum := by
  induction l generalizing a with
  | nil => simp
  | cons x xs ih => simp [ih]; ring

/-- Setting index `i` of a list to its current value plus `v` adds `v`
to the list's sum, when `i` is in range. -/
theorem sum_set_add (l : List ℚ) (i : ℕ) (v : ℚ) (h : i < l.length) :
    (l.set i (l.getD i 0 + v)).sum = l.sum + v := by
  induction l generalizing i with
  | nil => simp at h
  | cons x xs ih =>
      cases i with
      | zero => simp [List.sum_cons]; ring
      | succ j =>
          have h2 : j < xs.length := by simpa using h
          simp only [List.getD_cons_succ]
          show (x :: xs.set j (xs.getD j 0 + v)).sum = (x :: xs).sum + v
          rw [List.sum_cons, List.sum_cons, ih j h2]
          ring

/-! ## Claim theorems -/

/-- C1: for every counter-store state and restaurant id,
`getNextOrderNumber` reads the record keyed `restaurantId_today`; when
it is absent it creates it with count 1 and returns 1, otherwise it
sets `count = count + 1` and returns that value, and the returned
number always equals the count stored after the call. -/
theorem getNextOrderNumber_spec (store : CounterStore) (restaurantId today : String) :
    (store (counterKey restaurantId today) = none →
      (getNextOrderNumber store restaurantId today).2 = 1) ∧
    (∀ count, store (counterKey restaurantId today) = some count →
      (getNextOrderNumber store restaurantId today).2 = count + 1) ∧
    (getNextOrderNumber store restaurantId today).1 (counterKey restaurantId today)
      = some (getNextOrderNumber store restaurantId today).2 := by
  unfold getNextOrderNumber
  cases h : store (counterKey restaurantId today) <;> simp [h]

/-- Witness for C1: on an empty counter store, the first call for
restaurant `r1` returns 1 and stores count 1. -/
theorem getNextOrderNumber_spec_witness :
    (getNextOrderNumber (fun _ => none) "r1" "2024-01-01").2 = 1 ∧
    (getNextOrderNumber (fun _ => none) "r1" "2024-01-01").1 (counterKey "r1" "2024-01-01")
      = some 1 := by
  constructor
  · exact (getNextOrderNumber_spec (fun _ => none) "r1" "2024-01-01").1 rfl
  · exact (getNextOrderNumber_spec (fun _ => none) "r1" "2024-01-01").2.2

/-- C4: a status is classified past exactly when it is Served or
Canceled and active otherwise, the dashboard partitions orders by that
classification, and the pending badge count equals the number of the
restaurant's orders whose status is neither Served nor Canceled. -/
theorem status_classification_spec (orders : List Order) :
    (∀ status : OrderStatus,
      isActiveStatus status = true ↔
        ¬(status = OrderStatus.Served ∨ status = OrderStatus.Canceled)) ∧
    (∀ o : Order, o ∈ activeOrders orders ↔
      o ∈ orders ∧ ¬(o.status = OrderStatus.Served ∨ o.status = OrderStatus.Canceled)) ∧
    (∀ o : Order, o ∈ pastOrders orders ↔
      o ∈ orders ∧ (o.status = OrderStatus.Served ∨ o.status = OrderStatus.Canceled)) ∧
    pendingOrderCount orders =
      (orders.filter (fun o =>
        decide (¬(o.status = OrderStatus.Served ∨ o.status = OrderStatus.Canceled)))).length ∧
    pendingOrderCount orders = (activeOrders orders).length := by
  refine ⟨?_, ?_, ?_, ?_, ?_⟩
  · intro status; cases status <;> simp [isActiveStatus]
  · intro o
    simp only [activeOrders, List.mem_filter, isActiveStatus]
    constructor
    · rintro ⟨hm, hb⟩
      refine ⟨hm, ?_⟩
      simp only [Bool.and_eq_true, Bool.not_eq_true', decide_eq_false_iff_not] at hb
      rintro (h | h) <;> simp [h] at hb
    · rintro ⟨hm, hb⟩
      refine ⟨hm, ?_⟩
      push_neg at hb
      simp [hb.1, hb.2]
  · intro o
    simp only [pastOrders, List.mem_filter, Bool.or_eq_true, decide_eq_true_eq]
  · unfold pendingOrderCount
    congr 1
    apply List.filter_congr
    intro o _
    cases h1 : decide (o.status = OrderStatus.Served) <;>
      cases h2 : decide (o.status = OrderStatus.Canceled) <;>
        simp_all
  · unfold pendingOrderCount activeOrders isActiveStatus
    rfl

/-- C5: the customer-facing progress mapping assigns Received 1,
Ongoing 2, Finishing 3, On the Way 4, Served 5 and Canceled 0 out of 5
total steps; the displayed percentage is `step / 5 * 100`; and the
progress bar is suppressed exactly for a Canceled order, which gets a
distinct canceled rendering. -/
theorem progress_mapping_spec :
    statusStep OrderStatus.Received = 1 ∧
    statusStep OrderStatus.Ongoing = 2 ∧
    statusStep OrderStatus.Finishing = 3 ∧
    statusStep OrderStatus.OnTheWay = 4 ∧
    statusStep OrderStatus.Served = 5 ∧
    statusStep OrderStatus.Canceled = 0 ∧
    TOTAL_STEPS = 5 ∧
    (∀ status, progressPercentage status = (statusStep status : ℚ) / 5 * 100) ∧
    progressPercentage OrderStatus.Received = 20 ∧
    progressPercentage OrderStatus.Served = 100 ∧
    progressPercentage OrderStatus.Canceled = 0 ∧
    (∀ status, showsProgressBar status = false ↔ status = OrderStatus.Canceled) := by
  refine ⟨rfl, rfl, rfl, rfl, rfl, rfl, rfl, ?_,
    by norm_num [progressPercentage, statusStep, TOTAL_STEPS],
    by norm_num [progressPercentage, statusStep, TOTAL_STEPS],
    by norm_num [progressPercentage, statusStep, TOTAL_STEPS], ?_⟩
  · intro status; rfl
  · intro status; cases status <;> simp [showsProgressBar]

/-- C6: the statistics memo returns
`averageOrderValue = totalRevenue / totalOrders` when there is at
least one filtered order and 0 when there is none; on the empty
filtered set every metric is 0 and no division by zero occurs. -/
theorem stats_average_spec (filteredOrders : List Order) :
    (0 < (stats filteredOrders).totalOrders →
      (stats filteredOrders).averageOrderValue =
        (stats filteredOrders).totalRevenue / ((stats filteredOrders).totalOrders : ℚ)) ∧
    ((stats filteredOrders).totalOrders = 0 →
      (stats filteredOrders).averageOrderValue = 0) ∧
    (stats filteredOrders).totalRevenue =
      (filteredOrders.map (fun o => o.total)).sum ∧
    stats [] = { totalRevenue := 0, totalOrders := 0, averageOrderValue := 0 } := by
  refine ⟨?_, ?_, ?_, by rfl⟩
  · intro h
    simp only [stats]
    rw [if_pos]
    exact h
  · intro h
    simp only [stats] at h ⊢
    rw [if_neg]
    omega
  · simp only [stats]
    simpa using foldl_add_eq_sum (fun o : Order => o.total) filteredOrders 0

/-- Witness for C6: a one-order list has a positive order count and its
average equals revenue over count; the empty list yields all zeros. -/
theorem stats_average_spec_witness :
    (stats [samplePlacedOrder]).averageOrderValue =
      (stats [samplePlacedOrder]).totalRevenue /
        ((stats [samplePlacedOrder]).totalOrders : ℚ) ∧
    (stats []).averageOrderValue = 0 := by
  constructor
  · exact (stats_average_spec [samplePlacedOrder]).1 (by decide)
  · exact (stats_average_spec []).2.1 (by decide)

/-- Counterexample for C8: the dashboard status picker lets an order in
status Ongoing be set back to Received, a transition the claimed state
machine Received → Ongoing → Finishing → On the Way → Served (plus
non-terminal → Canceled) does not contain. -/
theorem dashboard_transition_counterexample :
    dashboardCanSetStatus OrderStatus.Ongoing OrderStatus.Received = true ∧
    specTransition OrderStatus.Ongoing OrderStatus.Received = false := by
  decide

/-- C8 (amended): through the dashboard, an order whose status is
non-terminal (neither Served nor Canceled) can be set to any of the six
statuses, and an order in a terminal state is never offered the status
control, so a terminal status never transitions; every transition of
the claimed state machine is among those the dashboard allows. -/
theorem dashboard_transition_spec :
    (∀ current next : OrderStatus,
      dashboardCanSetStatus current next = true ↔
        (current ≠ OrderStatus.Served ∧ current ≠ OrderStatus.Canceled)) ∧
    (∀ next : OrderStatus,
      dashboardCanSetStatus OrderStatus.Served next = false ∧
      dashboardCanSetStatus OrderStatus.Canceled next = false) ∧
    (∀ current next : OrderStatus,
      specTransition current next = true → dashboardCanSetStatus current next = true) := by
  decide

/-- C10: the items persisted by `handlePlaceOrder` are exactly the cart
entries stripped of `description` and `image`: one saved snapshot per
cart entry, with `id`, `name`, `price`, `categoryId` and `quantity`
unchanged (the `SavedOrderItem` record has no description or image
field at all). -/
theorem itemsToSave_spec (cart : List OrderItem) :
    itemsToSave cart = cart.map stripForSave ∧
    (itemsToSave cart).length = cart.length ∧
    (itemsToSave cart).map (fun s => s.id) = cart.map (fun i => i.id) ∧
    (itemsToSave cart).map (fun s => s.name) = cart.map (fun i => i.name) ∧
    (itemsToSave cart).map (fun s => s.price) = cart.map (fun i => i.price) ∧
    (itemsToSave cart).map (fun s => s.categoryId) = cart.map (fun i => i.categoryId) ∧
    (itemsToSave cart).map (fun s => s.quantity) = cart.map (fun i => i.quantity) := by
  refine ⟨rfl, ?_, ?_, ?_, ?_, ?_, ?_⟩ <;>
    simp [itemsToSave, List.map_map, stripForSave, Function.comp]

/-- C2: when the order-number transaction fails (`getNextOrderNumber`
throws), `handlePlaceOrder` never reaches `setDoc` — no order document
is written — and, whenever the counter step actually ran (not the demo
menu, identifier non-empty), the catch branch surfaces the "Order
Failed" toast to the user. -/
theorem placeOrder_counter_failure_spec (isDemo : Bool)
    (restaurantId orderId customerIdentifier : String) (cart : List OrderItem)
    (message : String) (createdAt : Timestamp) :
    writtenOrder (handlePlaceOrder isDemo restaurantId orderId customerIdentifier cart
        (Except.error message) createdAt) = none ∧
    (isDemo = false → customerIdentifier ≠ "" →
      handlePlaceOrder isDemo restaurantId orderId customerIdentifier cart
        (Except.error message) createdAt = PlaceOrderOutcome.orderFailedToast) := by
  unfold handlePlaceOrder
  cases isDemo with
  | true => simp [writtenOrder]
  | false =>
      by_cases h : customerIdentifier = "" <;> simp [h, writtenOrder]

/-- Witness for C2: a concrete failing placement (no demo, identifier
"14", counter error) writes nothing and shows the failure toast. -/
theorem placeOrder_counter_failure_spec_witness :
    handlePlaceOrder false "r1" "order-1" "14" sampleCart
        (Except.error "Could not generate a new order number.") sampleTime
      = PlaceOrderOutcome.orderFailedToast ∧
    writtenOrder (handlePlaceOrder false "r1" "order-1" "14" sampleCart
        (Except.error "Could not generate a new order number.") sampleTime) = none := by
  constructor
  · exact (placeOrder_counter_failure_spec false "r1" "order-1" "14" sampleCart
      "Could not generate a new order number." sampleTime).2 rfl (by decide)
  · exact (placeOrder_counter_failure_spec false "r1" "order-1" "14" sampleCart
      "Could not generate a new order number." sampleTime).1

/-- C3: the total of every order `handlePlaceOrder` writes equals the
sum of `price * quantity` over the cart at creation time (equivalently
over the stored item snapshots), and the status-update operation —
the only post-creation write the system performs on an order — leaves
the stored total unchanged. -/
theorem order_total_spec (isDemo : Bool)
    (restaurantId orderId customerIdentifier : String) (cart : List OrderItem)
    (counterResult : Except String ℕ) (createdAt : Timestamp) (order : Order)
    (h : handlePlaceOrder isDemo restaurantId orderId customerIdentifier cart
        counterResult createdAt = PlaceOrderOutcome.placed order) :
    order.total = (cart.map (fun item => item.price * (item.quantity : ℚ))).sum ∧
    order.total = (order.items.map (fun item => item.price * (item.quantity : ℚ))).sum ∧
    (∀ newStatus, (handleStatusChange order newStatus).total = order.total) := by
  unfold handlePlaceOrder at h
  split at h
  · simp at h
  · split at h
    · simp at h
    · cases counterResult with
      | error e => simp at h
      | ok orderNumber =>
          simp only [PlaceOrderOutcome.placed.injEq] at h
          subst h
          refine ⟨?_, ?_, fun newStatus => rfl⟩
          · show orderTotal cart = _
            unfold orderTotal
            simpa using
              foldl_add_eq_sum (fun item : OrderItem => item.price * (item.quantity : ℚ)) cart 0
          · show orderTotal cart = _
            unfold orderTotal
            simp only [itemsToSave, List.map_map]
            simpa [stripForSave, Function.comp] using
              foldl_add_eq_sum (fun item : OrderItem => item.price * (item.quantity : ℚ)) cart 0

/-- Witness for C3: placing the sample cart yields the concrete order
whose total is the cart's price-times-quantity sum. -/
theorem order_total_spec_witness :
    samplePlacedOrder.total =
      (sampleCart.map (fun item => item.price * (item.quantity : ℚ))).sum :=
  (order_total_spec false "r1" "order-1" "14" sampleCart (Except.ok 1) sampleTime
    samplePlacedOrder rfl).1

/-- Adding a menu item to a cart preserves the cart invariant: an
existing entry's quantity grows by 1, a fresh item enters with
quantity 1 and a previously unused id. -/
theorem handleAddToOrder_preserves (cart : List OrderItem) (item : MenuItem)
    (h : CartInv cart) : CartInv (handleAddToOrder cart item) := by
  obtain ⟨hq, hn⟩ := h
  unfold handleAddToOrder
  by_cases hmem : cart.any (fun orderItem => orderItem.id = item.id) = true
  · rw [if_pos hmem]
    constructor
    · intro x hx
      simp only [List.mem_map] at hx
      obtain ⟨y, hy, rfl⟩ := hx
      by_cases hid : y.id = item.id
      · rw [if_pos hid]
        show 1 ≤ y.quantity + 1
        have := hq y hy
        omega
      · rw [if_neg hid]
        exact hq y hy
    · have : (cart.map (fun orderItem =>
          if orderItem.id = item.id then
            { orderItem with quantity := orderItem.quantity + 1 }
          else orderItem)).map (fun entry => entry.id)
          = cart.map (fun entry => entry.id) := by
        rw [List.map_map]
        apply List.map_congr_left
        intro a _
        by_cases hid : a.id = item.id <;> simp [hid]
      rw [this]
      exact hn
  · rw [if_neg hmem]
    have hnotin : ∀ y ∈ cart, ¬(y.id = item.id) := by
      intro y hy
      intro hid
      exact hmem (List.any_eq_true.2 ⟨y, hy, by simp [hid]⟩)
    constructor
    · intro x hx
      rcases List.mem_append.1 hx with hx | hx
      · exact hq x hx
      · simp only [List.mem_singleton] at hx
        subst hx
        show (1 : ℤ) ≤ 1
        exact le_refl 1
    · rw [List.map_append]
      rw [List.nodup_append]
      refine ⟨hn, by simp, ?_⟩
      intro a ha hb
      simp only [List.mem_map] at ha
      obtain ⟨y, hy, rfl⟩ := ha
      simp only [List.map_cons, List.map_nil, List.mem_singleton] at hb
      exact hnotin y hy hb

/-- Updating a quantity preserves the cart invariant: a non-positive
quantity removes the entry, a positive quantity overwrites it. -/
theorem handleUpdateQuantity_preserves (cart : List OrderItem) (itemId : String)
    (quantity : ℤ) (h : CartInv cart) : CartInv (handleUpdateQuantity cart itemId quantity) := by
  obtain ⟨hq, hn⟩ := h
  unfold handleUpdateQuantity
  by_cases hle : quantity ≤ 0
  · rw [if_pos hle]
    constructor
    · intro x hx
      exact hq x (List.mem_of_mem_filter hx)
    · exact ((List.filter_sublist cart).map (fun entry => entry.id)).nodup hn
  · rw [if_neg hle]
    constructor
    · intro x hx
      simp only [List.mem_map] at hx
      obtain ⟨y, hy, rfl⟩ := hx
      by_cases hid : y.id = itemId
      · rw [if_pos hid]
        show 1 ≤ quantity
        omega
      · rw [if_neg hid]
        exact hq y hy
    · have : (cart.map (fun item =>
          if item.id = itemId then { item with quantity := quantity } else item)).map
            (fun entry => entry.id)
          = cart.map (fun entry => entry.id) := by
        rw [List.map_map]
        apply List.map_congr_left
        intro a _
        by_cases hid : a.id = itemId <;> simp [hid]
      rw [this]
      exact hn

/-- Every single cart interaction preserves the cart invariant. -/
theorem applyCartOp_preserves (cart : List OrderItem) (op : CartOp)
    (h : CartInv cart) : CartInv (applyCartOp cart op) := by
  cases op with
  | add item => exact handleAddToOrder_preserves cart item h
  | update itemId quantity => exact handleUpdateQuantity_preserves cart itemId quantity h

/-- Folding any sequence of cart interactions preserves the cart
invariant. -/
theorem foldl_cartOps_preserves (ops : List CartOp) :
    ∀ cart : List OrderItem, CartInv cart → CartInv (ops.foldl applyCartOp cart) := by
  induction ops with
  | nil => intro cart h; simpa using h
  | cons op rest ih =>
      intro cart h
      rw [List.foldl_cons]
      exact ih (applyCartOp cart op) (applyCartOp_preserves cart op h)

/-- C9: starting from the empty cart, every sequence of
`handleAddToOrder` and `handleUpdateQuantity` interactions keeps every
entry's quantity at least 1 with pairwise-distinct entry ids, so every
item snapshot an order is placed with has quantity at least 1. -/
theorem cart_invariant_spec (ops : List CartOp) :
    CartInv (runCartOps ops) ∧
    (∀ item ∈ runCartOps ops, 1 ≤ item.quantity) ∧
    ((runCartOps ops).map (fun item => item.id)).Nodup ∧
    (∀ saved ∈ itemsToSave (runCartOps ops), 1 ≤ saved.quantity) := by
  have h : CartInv (runCartOps ops) :=
    foldl_cartOps_preserves ops [] ⟨by intro x hx; simp at hx, by simp⟩
  refine ⟨h, h.1, h.2, ?_⟩
  intro saved hs
  simp only [itemsToSave, List.mem_map] at hs
  obtain ⟨item, hi, rfl⟩ := hs
  exact h.1 item hi

/-- Witness for C9: a concrete interaction sequence (add Bruschetta
twice, add Spinach Dip, set its quantity to 3) satisfies the cart
invariant. -/
theorem cart_invariant_spec_witness :
    CartInv (runCartOps [CartOp.add bruschetta, CartOp.add bruschetta,
      CartOp.add spinachDip, CartOp.update "item2" 3]) :=
  (cart_invariant_spec [CartOp.add bruschetta, CartOp.add bruschetta,
    CartOp.add spinachDip, CartOp.update "item2" 3]).1

/-- Folding orders into revenue buckets keeps the bucket count fixed
and adds exactly each order's total to the running bucket sum, as long
as every order's bucket index is in range. -/
theorem bucket_fold_spec (timeframe : Timeframe) (n : ℕ) (orders : List Order) :
    ∀ buckets : List ℚ, buckets.length = n →
      (∀ o ∈ orders, bucketIndex timeframe o.createdAt < n) →
      (orders.foldl
          (fun b o => addToBucket b (bucketIndex timeframe o.createdAt) o.total)
          buckets).length = n ∧
      (orders.foldl
          (fun b o => addToBucket b (bucketIndex timeframe o.createdAt) o.total)
          buckets).sum = buckets.sum + (orders.map (fun o => o.total)).sum := by
  induction orders with
  | nil => intro buckets hlen _; simpa using hlen
  | cons o rest ih =>
      intro buckets hlen hidx
      have hlt : bucketIndex timeframe o.createdAt < buckets.length :=
        hlen ▸ hidx o (by simp)
      have hlen2 : (addToBucket buckets (bucketIndex timeframe o.createdAt) o.total).length
          = n := by
        simp only [addToBucket, List.length_set]
        exact hlen
      have hrest : ∀ x ∈ rest, bucketIndex timeframe x.createdAt < n := by
        intro x hx
        exact hidx x (by simp [hx])
      obtain ⟨hl, hs⟩ := ih (addToBucket buckets (bucketIndex timeframe o.createdAt) o.total)
        hlen2 hrest
      rw [List.foldl_cons]
      refine ⟨hl, ?_⟩
      rw [hs]
      unfold addToBucket
      rw [sum_set_add buckets (bucketIndex timeframe o.createdAt) o.total hlt]
      simp only [List.map_cons, List.sum_cons]
      ring

/-- C7: the revenue histogram has 24 buckets in the day window, one per
day of the month in the month window and 12 in the year window; each
order's total lands in the single bucket named by its creation hour,
day-of-month or month respectively; and the bucket revenues sum to the
window's `totalRevenue` — all under the window guarantee that each
order's bucket index is within the allocated range. -/
theorem chartData_spec (timeframe : Timeframe) (daysInMonth : ℕ)
    (filteredOrders : List Order)
    (h : ∀ o ∈ filteredOrders,
      bucketIndex timeframe o.createdAt < bucketCount timeframe daysInMonth) :
    (chartData timeframe daysInMonth filteredOrders).length
        = bucketCount timeframe daysInMonth ∧
    bucketCount Timeframe.day daysInMonth = 24 ∧
    bucketCount Timeframe.month daysInMonth = daysInMonth ∧
    bucketCount Timeframe.year daysInMonth = 12 ∧
    (∀ t : Timestamp,
      bucketIndex Timeframe.day t = t.hour ∧
      bucketIndex Timeframe.month t = t.day - 1 ∧
      bucketIndex Timeframe.year t = t.month) ∧
    (chartData timeframe daysInMonth filteredOrders).sum
        = (stats filteredOrders).totalRevenue := by
  have key := bucket_fold_spec timeframe (bucketCount timeframe daysInMonth) filteredOrders
    (List.replicate (bucketCount timeframe daysInMonth) (0 : ℚ)) (by simp) h
  refine ⟨key.1, rfl, rfl, rfl, fun t => ⟨rfl, rfl, rfl⟩, ?_⟩
  show (chartData timeframe daysInMonth filteredOrders).sum = _
  unfold chartData
  rw [key.2]
  have hz : (List.replicate (bucketCount timeframe daysInMonth) (0 : ℚ)).sum = 0 := by
    simp
  rw [hz, zero_add]
  show _ = (stats filteredOrders).totalRevenue
  simp only [stats]
  rw [foldl_add_eq_sum (fun o : Order => o.total) filteredOrders 0, zero_add]

/-- Witness for C7: one Served sample order in the day window lands in
a 24-bucket histogram whose revenues sum to the total revenue. -/
theorem chartData_spec_witness :
    (chartData Timeframe.day 30 [samplePlacedOrder]).length = 24 ∧
    (chartData Timeframe.day 30 [samplePlacedOrder]).sum
      = (stats [samplePlacedOrder]).totalRevenue := by
  have h := chartData_spec Timeframe.day 30 [samplePlacedOrder]
    (by intro o ho; simp only [List.mem_singleton] at ho; subst ho; decide)
  exact ⟨h.1, h.2.2.2.2.2⟩

end EMenu
